import Mathlib

/-!
Verification of the risk-classification, aggregation, model-loading and
navigation logic of the Coastal Threat Alert System (`src/app2.py`),
as a shallow embedding in Lean 4.

Scores produced by the tide model are embedded as rationals (`ℚ`): every
float literal appearing in the program and in the boundary tests (2.5,
1.5, 2.4999, 1.4999) is exactly representable and the comparisons the
code performs coincide with rational comparisons at these values.
Model `predict` calls, which may raise in Python, are embedded as
`Except String` values; a Python dictionary entry that is either a
success record or a `{success: False, error: e}` record is embedded as
the `SignalEntry` sum.
-/

/-- The three-level risk discretization used for both display and
aggregation. -/
inductive RiskBand
  | Low
  | Moderate
  | High
deriving DecidableEq, Repr

/-- The tide-score threshold chain of `make_predictions`
(`app2.py` lines 187–198), returning the level string stored in
`results['tide']['level']`. -/
def tideLevelString (tide_pred : ℚ) : String :=
  if tide_pred ≥ 5/2 then "High"
  else if tide_pred ≥ 3/2 then "Moderate"
  else "Low"

/-- The same threshold chain read as a `RiskBand`: `score ≥ 2.5 → High`,
`score ≥ 1.5 → Moderate`, otherwise `Low` (`app2.py` lines 187–198). -/
def classifyTide (tide_pred : ℚ) : RiskBand :=
  if tide_pred ≥ 5/2 then .High
  else if tide_pred ≥ 3/2 then .Moderate
  else .Low

/-- The coastal-label match of `make_predictions` (`app2.py` lines
216–224) read as a `RiskBand`: exact match on "High" and "Moderate",
any other string falls through to the `else` branch (`Low`). -/
def classifyCoastalLabel (coastal_pred : String) : RiskBand :=
  if coastal_pred = "High" then .High
  else if coastal_pred = "Moderate" then .Moderate
  else .Low

/-- The successful tide entry of the `results` dict:
`{'score': …, 'level': …, 'color': …, 'class': …, 'success': True}`. -/
structure TideOk where
  score : ℚ
  level : String
  color : String
  cls : String
deriving DecidableEq, Repr

/-- The successful coastal entry of the `results` dict:
`{'level': …, 'color': …, 'class': …, 'success': True}`. -/
structure CoastalOk where
  level : String
  color : String
  cls : String
deriving DecidableEq, Repr

/-- A per-signal entry of the `results` dict: either the success record
or `{'success': False, 'error': str(e)}`. -/
inductive SignalEntry (α : Type)
  | ok (val : α)
  | failed (error : String)
deriving DecidableEq, Repr

/-- The `results` dictionary built by `make_predictions`: each key is
present only when the corresponding model object is not `None`. -/
structure PredictionResults where
  tide : Option (SignalEntry TideOk)
  coastal : Option (SignalEntry CoastalOk)
deriving DecidableEq, Repr

/-- A loaded tide model: its `predict` method, which may raise. -/
def TideModel : Type := ℚ → ℚ → Except String ℚ

/-- A loaded coastal model: its `predict` method, which may raise. -/
def CoastalModel : Type := ℚ → ℚ → Except String String

/-- `make_predictions(tide_model, coastal_model, lat, lon)`
(`app2.py` lines 174–235).  For each signal independently: skip when the
model is `None`; otherwise call `predict`, catching any exception into a
failed entry carrying `str(e)`. -/
def make_predictions (tide_model : Option TideModel)
    (coastal_model : Option CoastalModel) (lat lon : ℚ) : PredictionResults :=
  { tide :=
      tide_model.map fun m =>
        match m lat lon with
        | .ok tide_pred =>
            let tide_level := if tide_pred ≥ 5/2 then "High"
              else if tide_pred ≥ 3/2 then "Moderate" else "Low"
            let tide_color := if tide_pred ≥ 5/2 then "🔴"
              else if tide_pred ≥ 3/2 then "🟡" else "🟢"
            let tide_class := if tide_pred ≥ 5/2 then "risk-high"
              else if tide_pred ≥ 3/2 then "risk-moderate" else "risk-low"
            .ok ⟨tide_pred, tide_level, tide_color, tide_class⟩
        | .error e => .failed e
    coastal :=
      coastal_model.map fun m =>
        match m lat lon with
        | .ok coastal_pred =>
            let coastal_color := if coastal_pred = "High" then "🔴"
              else if coastal_pred = "Moderate" then "🟡" else "🟢"
            let coastal_class := if coastal_pred = "High" then "risk-high"
              else if coastal_pred = "Moderate" then "risk-moderate" else "risk-low"
            .ok ⟨coastal_pred, coastal_color, coastal_class⟩
        | .error e => .failed e }

/-- The overall-assessment card rendered by `display_prediction_results`:
CSS class, headline text, and advisory description string. -/
structure OverallCard where
  cls : String
  text : String
  desc : String
deriving DecidableEq, Repr

/-- The overall-assessment logic of `display_prediction_results`
(`app2.py` lines 322–352): the card is rendered only when both the tide
and the coastal entries are present and successful, and its band is
decided by re-testing the raw tide score against 2.5 and 1.5 and the raw
coastal level string against "High" and "Moderate". -/
def overall_assessment (results : PredictionResults) : Option OverallCard :=
  match results.tide, results.coastal with
  | some (.ok t), some (.ok c) =>
      let tide_risk := t.score
      let coastal_risk := c.level
      if tide_risk ≥ 5/2 ∨ coastal_risk = "High" then
        some ⟨"risk-high", "🔴 CRITICAL RISK",
          "Avoid all coastal activities immediately"⟩
      else if tide_risk ≥ 3/2 ∨ coastal_risk = "Moderate" then
        some ⟨"risk-moderate", "🟡 MODERATE RISK",
          "Exercise extreme caution near coastal areas"⟩
      else
        some ⟨"risk-low", "🟢 LOW RISK",
          "Generally safe conditions for coastal activities"⟩
  | _, _ => none

/-- The fixed card rendered for each overall band, including the
advisory string the spec fixes for that band. -/
def overallCardOfBand : RiskBand → OverallCard
  | .High => ⟨"risk-high", "🔴 CRITICAL RISK",
      "Avoid all coastal activities immediately"⟩
  | .Moderate => ⟨"risk-moderate", "🟡 MODERATE RISK",
      "Exercise extreme caution near coastal areas"⟩
  | .Low => ⟨"risk-low", "🟢 LOW RISK",
      "Generally safe conditions for coastal activities"⟩

/-- The raw-value aggregation rule of `display_prediction_results`
(`app2.py` lines 329–340), as a band: re-tests the raw tide score and
the raw coastal label. -/
def overallBandFromRaw (tide_risk : ℚ) (coastal_risk : String) : RiskBand :=
  if tide_risk ≥ 5/2 ∨ coastal_risk = "High" then .High
  else if tide_risk ≥ 3/2 ∨ coastal_risk = "Moderate" then .Moderate
  else .Low

/-- Modelled from the spec: the band-based aggregation variant the spec
declares equivalent to the raw re-test — `overall = High` if either
derived band is High, else Moderate if either is Moderate, else Low. -/
def overallBandFromBands (tb cb : RiskBand) : RiskBand :=
  if tb = .High ∨ cb = .High then .High
  else if tb = .Moderate ∨ cb = .Moderate then .Moderate
  else .Low

/-- The file-based model store as `load_models` observes it: whether
each `.joblib` artifact exists on disk, and what `joblib.load` returns
(or raises) when attempted on it. -/
structure ModelStore where
  tide_exists : Bool
  tide_load : Except String TideModel
  coastal_exists : Bool
  coastal_load : Except String CoastalModel

/-- `load_models()` (`app2.py` lines 152–171).  Both locals start as
`None`; both load attempts sit inside one `try` block, so an exception
raised by the first `joblib.load` skips the second attempt entirely and
returns whatever was assigned before the exception. -/
def load_models (s : ModelStore) : Option TideModel × Option CoastalModel :=
  match (if s.tide_exists then s.tide_load.map some else .ok none :
      Except String (Option TideModel)) with
  | .error _ => (none, none)
  | .ok tide_model =>
      match (if s.coastal_exists then s.coastal_load.map some else .ok none :
          Except String (Option CoastalModel)) with
      | .error _ => (tide_model, none)
      | .ok coastal_model => (tide_model, coastal_model)

/-- The outcome of one top-level script run: either `st.stop()` was
reached after the blocking "Model Files Missing" message (no page is
rendered and no report can be produced), or the page rendered, possibly
with a prediction report. -/
inductive ScriptOutcome
  | halted
  | rendered (report : Option PredictionResults)
deriving DecidableEq, Repr

/-- The top-level gating of `app2.py` lines 363–379 followed by an
optional analyze action: after `load_models`, if both models are `None`
the script shows the blocking message and calls `st.stop()`; otherwise
interaction continues and pressing "Analyze" produces
`make_predictions` on the current coordinate. -/
def run_script (tide_model : Option TideModel)
    (coastal_model : Option CoastalModel) (analyze : Bool)
    (lat lon : ℚ) : ScriptOutcome :=
  if tide_model.isNone ∧ coastal_model.isNone then .halted
  else .rendered
    (if analyze then some (make_predictions tide_model coastal_model lat lon)
     else none)

/-- The framework-managed session state: the current page string
(`'home'`, `'map'` or `'coordinates'`) and the selected coordinate. -/
structure SessionState where
  page : String
  latitude : ℚ
  longitude : ℚ
deriving DecidableEq, Repr

/-- The `lat`/`lng` fields of a `last_clicked` map payload. -/
structure ClickPayload where
  lat : ℚ
  lng : ℚ
deriving DecidableEq, Repr

/-- The map-click handler (`app2.py` lines 529–536).  `last_clicked`
may be absent (`None`, falsy); when present the clicked values are
tested with Python truthiness (`if clicked_lat and clicked_lng:`), so a
zero latitude or longitude is skipped.  The handler never assigns
`st.session_state.page`. -/
def handle_map_click (s : SessionState) (last_clicked : Option ClickPayload) :
    SessionState :=
  match last_clicked with
  | none => s
  | some c =>
      if c.lat ≠ 0 ∧ c.lng ≠ 0 then
        { s with latitude := c.lat, longitude := c.lng }
      else s

/-- C1. For every analysis where both model calls succeed, the overall
verdict is High if the raw tide score is >= 2.5 or the coastal label
equals "High"; otherwise Moderate if the raw tide score is >= 1.5 or the
coastal label equals "Moderate"; otherwise Low; and the overall band
carries exactly the fixed advisory string of `overallCardOfBand`:
High -> "Avoid all coastal activities immediately", Moderate ->
"Exercise extreme caution near coastal areas", Low -> "Generally safe
conditions for coastal activities". -/
theorem overall_verdict_bands_and_advisories (t : TideOk) (c : CoastalOk) :
    overall_assessment ⟨some (.ok t), some (.ok c)⟩ =
      some (overallCardOfBand
        (if t.score ≥ 5/2 ∨ c.level = "High" then .High
         else if t.score ≥ 3/2 ∨ c.level = "Moderate" then .Moderate
         else .Low)) := by
  by_cases h1 : t.score ≥ 5/2 ∨ c.level = "High" <;>
    by_cases h2 : t.score ≥ 3/2 ∨ c.level = "Moderate" <;>
      simp [overall_assessment, overallCardOfBand, h1, h2]

/-- C2. For every score, `classifyTide` returns High when the score is
at least 2.5, Moderate when it lies in [1.5, 2.5), and Low below 1.5;
the boundaries are inclusive, witnessed at 2.5, 2.4999, 1.5 and 1.4999. -/
theorem classifyTide_threshold_spec (s : ℚ) :
    (s ≥ 5/2 → classifyTide s = .High) ∧
    (3/2 ≤ s ∧ s < 5/2 → classifyTide s = .Moderate) ∧
    (s < 3/2 → classifyTide s = .Low) ∧
    classifyTide (5/2) = .High ∧
    classifyTide (24999/10000) = .Moderate ∧
    classifyTide (3/2) = .Moderate ∧
    classifyTide (14999/10000) = .Low := by
  refine ⟨?_, ?_, ?_, ?_, ?_, ?_, ?_⟩
  · intro h
    simp [classifyTide, h]
  · rintro ⟨h1, h2⟩
    have h3 : ¬ s ≥ 5/2 := not_le.mpr h2
    simp [classifyTide, h1, h3]
  · intro h
    have h1 : ¬ s ≥ 5/2 := not_le.mpr (h.trans (by norm_num))
    have h2 : ¬ s ≥ 3/2 := not_le.mpr h
    simp [classifyTide, h1, h2]
  · norm_num [classifyTide]
  · norm_num [classifyTide]
  · norm_num [classifyTide]
  · norm_num [classifyTide]

/-- Witness for C2: the three conditional clauses applied at the
concrete scores 3, 2 and 1. -/
theorem classifyTide_threshold_spec_witness :
    classifyTide 3 = .High ∧ classifyTide 2 = .Moderate ∧
      classifyTide 1 = .Low :=
  ⟨(classifyTide_threshold_spec 3).1 (by norm_num),
   (classifyTide_threshold_spec 2).2.1 ⟨by norm_num, by norm_num⟩,
   (classifyTide_threshold_spec 1).2.2.1 (by norm_num)⟩

/-- C3. For every string label, `classifyCoastalLabel` returns High
exactly when the label equals "High", Moderate exactly when it equals
"Moderate", and Low for every other string, including "Low" and the
empty string; it is a total function (never raises). -/
theorem classifyCoastalLabel_total_default (l : String) :
    (classifyCoastalLabel l = .High ↔ l = "High") ∧
    (classifyCoastalLabel l = .Moderate ↔ l = "Moderate") ∧
    (l ≠ "High" → l ≠ "Moderate" → classifyCoastalLabel l = .Low) ∧
    classifyCoastalLabel "Low" = .Low ∧
    classifyCoastalLabel "" = .Low := by
  by_cases h1 : l = "High" <;> by_cases h2 : l = "Moderate" <;>
    simp_all [classifyCoastalLabel]

/-- Witness for C3: the default clause applied at an arbitrary
unrecognized label. -/
theorem classifyCoastalLabel_total_default_witness :
    classifyCoastalLabel "garbage" = .Low :=
  (classifyCoastalLabel_total_default "garbage").2.2.1
    (by decide) (by decide)

/-- C7. For every tide score and coastal label, the overall verdict
computed by re-testing the raw tide score against 2.5 and 1.5 (as the
code does) equals the verdict computed from the already-derived bands
(High if either band is High, else Moderate if either band is Moderate,
else Low). -/
theorem aggregation_raw_eq_band (s : ℚ) (l : String) :
    overallBandFromRaw s l =
      overallBandFromBands (classifyTide s) (classifyCoastalLabel l) := by
  by_cases h1 : s ≥ 5/2
  · have h3 : s ≥ 3/2 := le_trans (by norm_num) h1
    by_cases h2 : l = "High" <;> by_cases h4 : l = "Moderate" <;>
      simp [overallBandFromRaw, overallBandFromBands, classifyTide,
        classifyCoastalLabel, h1, h2, h3, h4]
  · by_cases h3 : s ≥ 3/2 <;> by_cases h2 : l = "High" <;>
      by_cases h4 : l = "Moderate" <;>
        simp [overallBandFromRaw, overallBandFromBands, classifyTide,
          classifyCoastalLabel, h1, h2, h3, h4]

/-- C4. For every evaluation result, the overall card is present if and
only if both the tide entry and the coastal entry are present and
successful; in particular, with exactly one signal present the overall
verdict is never populated. -/
theorem overall_present_iff_both_signals (r : PredictionResults) :
    (overall_assessment r).isSome ↔
      (∃ t, r.tide = some (.ok t)) ∧ (∃ c, r.coastal = some (.ok c)) := by
  rcases r with ⟨tl, cl⟩
  rcases tl with _ | tl <;> (try rcases tl with t | et) <;>
    rcases cl with _ | cl <;> (try rcases cl with c | ec) <;>
      simp only [overall_assessment] <;>
        first
        | (constructor
           · intro _; exact ⟨⟨_, rfl⟩, ⟨_, rfl⟩⟩
           · intro _
             split
             · rfl
             · split <;> rfl)
        | simp

/-- C5. A model-invocation failure (an exceptional `predict` result) for
one signal is caught at the call site of `make_predictions` and recorded
as that signal's failed entry carrying the error message; the function
stays total (no exception escapes), and each signal's entry is
independent of the other model. -/
theorem model_failure_isolated (tm : TideModel) (cm : CoastalModel)
    (lat lon : ℚ) (e : String) :
    (tm lat lon = .error e →
      (make_predictions (some tm) (some cm) lat lon).tide =
        some (.failed e)) ∧
    (cm lat lon = .error e →
      (make_predictions (some tm) (some cm) lat lon).coastal =
        some (.failed e)) ∧
    (∀ tm' : TideModel,
      (make_predictions (some tm) (some cm) lat lon).coastal =
        (make_predictions (some tm') (some cm) lat lon).coastal) ∧
    (∀ cm' : CoastalModel,
      (make_predictions (some tm) (some cm) lat lon).tide =
        (make_predictions (some tm) (some cm') lat lon).tide) := by
  refine ⟨?_, ?_, fun _ => rfl, fun _ => rfl⟩
  · intro h
    simp [make_predictions, h]
  · intro h
    simp [make_predictions, h]

/-- Witness for C5: a tide model that throws "boom" yields the failed
tide entry while the coastal signal still succeeds, and symmetrically. -/
theorem model_failure_isolated_witness :
    (make_predictions (some fun _ _ => .error "boom")
        (some fun _ _ => .ok "High") 1 2).tide = some (.failed "boom") ∧
    (make_predictions (some fun _ _ => .ok 3)
        (some fun _ _ => .error "crash") 1 2).coastal =
      some (.failed "crash") :=
  ⟨(model_failure_isolated (fun _ _ => .error "boom")
      (fun _ _ => .ok "High") 1 2 "boom").1 rfl,
   (model_failure_isolated (fun _ _ => .ok 3)
      (fun _ _ => .error "crash") 1 2 "crash").2.1 rfl⟩

/-- C6. When both models come back `None` at load time the script run
halts at the blocking message (`st.stop()`), so no prediction report can
be produced in that session; when at least one model is present the run
renders and interaction continues. -/
theorem both_models_missing_blocks (tide_model : Option TideModel)
    (coastal_model : Option CoastalModel) (analyze : Bool) (lat lon : ℚ) :
    (tide_model = none ∧ coastal_model = none →
      run_script tide_model coastal_model analyze lat lon = .halted) ∧
    (tide_model.isSome ∨ coastal_model.isSome →
      ∃ rep, run_script tide_model coastal_model analyze lat lon =
        .rendered rep) := by
  constructor
  · rintro ⟨h1, h2⟩
    subst h1; subst h2
    simp [run_script]
  · intro h
    have hc : ¬ (tide_model.isNone ∧ coastal_model.isNone) := by
      rintro ⟨ht, hcn⟩
      rcases h with h | h <;> simp_all
    refine ⟨if analyze then
      some (make_predictions tide_model coastal_model lat lon) else none, ?_⟩
    simp only [run_script]
    rw [if_neg hc]

/-- Witness for C6: with both models `None` the run halts; with a dummy
tide model present it renders. -/
theorem both_models_missing_blocks_witness :
    run_script none none true 1 2 = .halted ∧
    ∃ rep, run_script (some fun _ _ => .ok 3) none true 1 2 =
      .rendered rep :=
  ⟨(both_models_missing_blocks none none true 1 2).1 ⟨rfl, rfl⟩,
   (both_models_missing_blocks (some fun _ _ => .ok 3) none true 1 2).2
     (Or.inl rfl)⟩

/-- C9. If the tide artifact exists but `joblib.load` raises on it, the
shared `try` block aborts before the coastal load is attempted, so
`load_models` returns both models as `None` — regardless of the coastal
artifact's state — and the session enters the fatal blocked state. -/
theorem tide_load_failure_blocks_session (s : ModelStore) (e : String)
    (h1 : s.tide_exists = true) (h2 : s.tide_load = .error e) :
    load_models s = (none, none) ∧
    ∀ (analyze : Bool) (lat lon : ℚ),
      run_script (load_models s).1 (load_models s).2 analyze lat lon =
        .halted := by
  have hl : load_models s = (none, none) := by
    simp [load_models, h1, h2, Except.map]
  exact ⟨hl, fun analyze lat lon => by simp [hl, run_script]⟩

/-- Witness for C9: a store whose tide artifact exists but fails to
load, while the coastal artifact is present and perfectly loadable. -/
theorem tide_load_failure_blocks_session_witness :
    load_models ⟨true, .error "corrupt", true,
      .ok (fun _ _ => .ok "High")⟩ = (none, none) ∧
    run_script (none : Option TideModel) (none : Option CoastalModel)
      true 1 2 = .halted :=
  ⟨(tide_load_failure_blocks_session
      ⟨true, .error "corrupt", true, .ok (fun _ _ => .ok "High")⟩
      "corrupt" rfl rfl).1,
   by
    have h := (tide_load_failure_blocks_session
      ⟨true, .error "corrupt", true, .ok (fun _ _ => .ok "High")⟩
      "corrupt" rfl rfl)
    have := h.2 true 1 2
    rwa [h.1] at this⟩

/-- Counterexample to C8 as stated: while the page is "map", a click
carrying the coordinate (0, 10) leaves the session coordinate at its
previous value (1, 2) instead of updating it, because the handler tests
the clicked values with Python truthiness and a 0.0 latitude is falsy. -/
theorem map_click_zero_lat_counterexample :
    handle_map_click ⟨"map", 1, 2⟩ (some ⟨0, 10⟩) = ⟨"map", 1, 2⟩ ∧
    handle_map_click ⟨"map", 1, 2⟩ (some ⟨0, 10⟩) ≠ ⟨"map", 0, 10⟩ := by
  constructor
  · decide
  · decide

/-- C8 (amended). For every map click whose payload is present and whose
latitude and longitude are both nonzero (truthy), the session coordinate
is updated to the clicked values; and for every click event the page
field is untouched — the handler is a self-loop that never navigates. -/
theorem map_click_updates_and_self_loop (s : SessionState)
    (c : ClickPayload) (h1 : c.lat ≠ 0) (h2 : c.lng ≠ 0) :
    handle_map_click s (some c) = ⟨s.page, c.lat, c.lng⟩ ∧
    ∀ lc : Option ClickPayload, (handle_map_click s lc).page = s.page := by
  constructor
  · simp [handle_map_click, h1, h2]
  · intro lc
    rcases lc with _ | c'
    · rfl
    · by_cases h : c'.lat ≠ 0 ∧ c'.lng ≠ 0 <;> simp [handle_map_click, h]

/-- Witness for the amended C8: a truthy click at (3, 4) updates the
coordinate and keeps the page. -/
theorem map_click_updates_and_self_loop_witness :
    handle_map_click ⟨"map", 1, 2⟩ (some ⟨3, 4⟩) = ⟨"map", 3, 4⟩ :=
  (map_click_updates_and_self_loop ⟨"map", 1, 2⟩ ⟨3, 4⟩
    (by norm_num) (by norm_num)).1

/-- C10. A map click whose latitude equals 0.0 or whose longitude equals
0.0 (or whose payload is missing) is silently ignored: the session
coordinate and page are left unchanged, because the handler tests the
clicked values for truthiness rather than for presence. -/
theorem falsy_click_ignored (s : SessionState) (c : ClickPayload)
    (h : c.lat = 0 ∨ c.lng = 0) :
    handle_map_click s (some c) = s ∧ handle_map_click s none = s := by
  refine ⟨?_, rfl⟩
  have hc : ¬ (c.lat ≠ 0 ∧ c.lng ≠ 0) := by
    rcases h with h | h <;> simp [h]
  simp [handle_map_click, hc]

/-- Witness for C10: a click at longitude 0 is ignored on a session
sitting at (1, 2). -/
theorem falsy_click_ignored_witness :
    handle_map_click ⟨"map", 1, 2⟩ (some ⟨7, 0⟩) = ⟨"map", 1, 2⟩ :=
  (falsy_click_ignored ⟨"map", 1, 2⟩ ⟨7, 0⟩ (Or.inr rfl)).1
